import Mathlib

/-!
Verification of the dashboard's session-liveness and opportunity-classification
resolvers, embedded from
`src/frontend/src/components/dashboard/CrawlerStatus.tsx`,
`src/frontend/src/components/dashboard/OpportunitiesTable.tsx` and
`src/frontend/src/pages/Dashboard.tsx`.

Conventions of the embedding:
* Timestamps are embedded as milliseconds since the Unix epoch (`Int`),
  matching the JavaScript `Date` value that `date-fns`' `parseISO` produces.
* An ISO date string is embedded by its `parseISO` outcome: `none` stands
  for a string that parses to an Invalid Date, `some ms` for a string that
  parses to the instant `ms`.  `parseISO` itself is third-party library
  code (date-fns) and is therefore represented by its result.
* JavaScript machine doubles never overflow in the relevant range
  (exact integers up to 2^53), so millisecond arithmetic is exact `Int`
  arithmetic.
* `date-fns` `differenceInMinutes(a, b)` is `Math.trunc((a-b)/60000)`,
  i.e. `Int.tdiv (a - b) 60000` (truncation toward zero).
-/

/-- Embedding of an ISO-8601 date string by its `parseISO` result:
`none` = the string does not parse (Invalid Date), `some ms` = the string
denotes the instant `ms` milliseconds since the epoch. -/
abbrev DateString := Option Int

/-- A crawl session as consumed by the dashboard.  The TypeScript type
declaration file is not part of the sources here; the fields are taken from
the spec's data model (§3) and from the fields the components actually read:
`status`, `created_at`, `started_at`, `completed_at`, `opportunities_found`.
`status` is kept as a raw string because the components must handle
unrecognized backend values. -/
structure CrawlSession where
  id : String
  source_id : String
  status : String
  created_at : DateString
  started_at : Option DateString
  completed_at : Option DateString
  opportunities_found : Nat
deriving Repr, DecidableEq

/-- A configured crawl target.  Only its presence matters to the logic
under verification (`sources[0]` / `sources.length === 0`). -/
structure CrawlSource where
  id : String
  name : String
deriving Repr, DecidableEq

/-- An opportunity record as consumed by `OpportunitiesTable`.  Fields are
those the component reads; `category` may be absent (`none`) and
`categories` may be absent or an arbitrary list. -/
structure Opportunity where
  id : String
  title : String
  category : Option String
  categories : Option (List String)
  submission_deadline : Option DateString
  published_date : Option DateString
  source_url : Option String
  status : String
deriving Repr, DecidableEq

/-- `isSessionActive` from `CrawlerStatus.tsx` (lines 16–33).
`now` is the value of `new Date()` resolved once in the call.

```ts
function isSessionActive(session: CrawlSession | null): boolean {
  if (!session) return false;
  if (session.status === 'running') return true;
  if (session.status === 'pending') {
    try {
      const createdAt = parseISO(session.created_at);
      const minutesAgo = differenceInMinutes(new Date(), createdAt);
      return minutesAgo < 2;
    } catch { return false; }
  }
  return false;
}
```

When `created_at` does not parse, `parseISO` yields an Invalid Date,
`differenceInMinutes` yields `NaN`, and `NaN < 2` is `false`; so the
unparseable case is embedded as `false`. -/
def isSessionActive (session : Option CrawlSession) (now : Int) : Bool :=
  match session with
  | none => false
  | some s =>
    if s.status = "running" then true
    else if s.status = "pending" then
      match s.created_at with
      | none => false
      | some createdAt => decide (Int.tdiv (now - createdAt) 60000 < 2)
    else false

/-- A status badge as returned by `getStatusBadge`: a CSS color class and a
user-facing label. -/
structure StatusBadge where
  color : String
  label : String
deriving Repr, DecidableEq

/-- The badge `getStatusBadge` falls back to ("Ready"). -/
def readyBadge : StatusBadge :=
  ⟨"bg-green-100 text-green-700 dark:bg-green-900/30 dark:text-green-400", "Ready"⟩

/-- `getStatusBadge` from `CrawlerStatus.tsx` (lines 35–56): no session or a
stale pending session shows "Ready"; otherwise the status is mapped through
the config record, whose lookup (`config[session.status] || ready`) falls
back to "Ready" on unknown statuses. -/
def getStatusBadge (session : Option CrawlSession) (now : Int) : StatusBadge :=
  match session with
  | none => readyBadge
  | some s =>
    if s.status = "pending" ∧ ¬ (isSessionActive (some s) now = true) then readyBadge
    else
      match s.status with
      | "completed" =>
        ⟨"bg-green-100 text-green-700 dark:bg-green-900/30 dark:text-green-400", "Completed"⟩
      | "running" =>
        ⟨"bg-blue-100 text-blue-700 dark:bg-blue-900/30 dark:text-blue-400", "Running"⟩
      | "pending" =>
        ⟨"bg-yellow-100 text-yellow-700 dark:bg-yellow-900/30 dark:text-yellow-400", "Pending"⟩
      | "failed" =>
        ⟨"bg-red-100 text-red-700 dark:bg-red-900/30 dark:text-red-400", "Failed"⟩
      | "cancelled" =>
        ⟨"bg-gray-100 text-gray-500 dark:bg-gray-700 dark:text-gray-400", "Cancelled"⟩
      | _ => readyBadge

/-- The Start-Crawl button's enabled condition from `CrawlerStatus.tsx`
(lines 109–120): the button carries `disabled = isRunning || !firstSource`
where `isRunning = isSessionActive(session)` and `firstSource = sources[0]`
(undefined exactly when the list is empty).  `canTriggerCrawl` is the
negation of `disabled`. -/
def canTriggerCrawl (sources : List CrawlSource) (session : Option CrawlSession)
    (now : Int) : Bool :=
  !(isSessionActive session now || sources.isEmpty)

/-- A session used for concrete evaluations of the session resolvers. -/
def pendingSessionAt (c : Int) : CrawlSession :=
  { id := "s1", source_id := "src1", status := "pending", created_at := some c,
    started_at := none, completed_at := none, opportunities_found := 0 }

/-- The display-status resolution exactly as the spec words it: absent
session shows `Ready`; a stale pending session shows `Ready`; otherwise the
status maps directly (`completed`, `running`, `pending` within the window,
`failed`, `cancelled`), and unknown statuses fall back to `Ready`.  This is
the spec-side definition for the refinement claim C2, to be compared with
`getStatusBadge` from the source. -/
def specResolveDisplayLabel (session : Option CrawlSession) (now : Int) : String :=
  match session with
  | none => "Ready"
  | some s =>
    match s.status with
    | "completed" => "Completed"
    | "running" => "Running"
    | "pending" => if isSessionActive (some s) now then "Pending" else "Ready"
    | "failed" => "Failed"
    | "cancelled" => "Cancelled"
    | _ => "Ready"

/-- A session with the given status; `created_at` parses to time 0. -/
def sessionWithStatus (st : String) : CrawlSession :=
  { pendingSessionAt 0 with status := st }

/-- JavaScript's `String.prototype.toLowerCase` for the ASCII category
codes in play: lower-case every character.  (Lean's `String.toLower` is the
same map; this definition keeps it kernel-reducible.) -/
def jsToLower (s : String) : String := ⟨s.data.map Char.toLower⟩

/-- `formatCategoryLabel` from `OpportunitiesTable.tsx` (lines 26–40).

```ts
function formatCategoryLabel(category: string | null): string {
  if (!category) return 'Other';
  const labels: Record<string, string> = { ... };
  return labels[category.toLowerCase()] || category;
}
```

JavaScript's `!category` is `true` both for `null` and for the empty
string, and the record lookup falls back to `category` itself on a miss. -/
def formatCategoryLabel (category : Option String) : String :=
  match category with
  | none => "Other"
  | some c =>
    if c = "" then "Other"
    else
      match jsToLower c with
      | "dynamics" => "Dynamics 365"
      | "ai" => "AI/ML"
      | "iot" => "IoT"
      | "erp" => "ERP"
      | "staff_augmentation" => "Staff Aug"
      | "cloud" => "Cloud"
      | "cybersecurity" => "Cybersecurity"
      | "data_analytics" => "Analytics"
      | "other" => "Other"
      | _ => c

/-- `getPrimaryCategory` from `OpportunitiesTable.tsx` (lines 104–109).

```ts
const getPrimaryCategory = (opp: Opportunity): string | null => {
  if (opp.categories && opp.categories.length > 0) {
    return opp.categories[0];
  }
  return opp.category || null;
};
```

A present-but-empty `categories` array is truthy in JavaScript but fails
the length check; `opp.category || null` maps both an absent and an empty
`category` to `null`. -/
def getPrimaryCategory (opp : Opportunity) : Option String :=
  match opp.categories with
  | some (c :: _) => some c
  | _ =>
    match opp.category with
    | some c => if c = "" then none else some c
    | none => none

/-- The table of known category codes (their lower-case forms). -/
def knownCategoryCodes : List String :=
  ["dynamics", "ai", "iot", "erp", "staff_augmentation", "cloud",
   "cybersecurity", "data_analytics", "other"]

/-- An opportunity with the given classification fields; all other fields
are fixed plain values. -/
def oppWithCategories (categories : Option (List String))
    (category : Option String) : Opportunity :=
  { id := "o1", title := "Network upgrade RFP", category := category,
    categories := categories, submission_deadline := none,
    published_date := none, source_url := none, status := "new" }

/-- Decimal digits of a natural number, most significant first, as
JavaScript renders an integer count into a distance string.  Structural
recursion on a fuel argument (the fuel `n+1` always suffices) keeps the
function kernel-reducible. -/
def natDigitsAux : Nat → Nat → List Char
  | 0, _ => []
  | fuel + 1, n =>
    if n < 10 then [Nat.digitChar n]
    else natDigitsAux fuel (n / 10) ++ [Nat.digitChar (n % 10)]

/-- Decimal digit characters of `n`, most significant first. -/
def natDigits (n : Nat) : List Char := natDigitsAux (n + 1) n

/-- Decimal rendering of a natural number, as JavaScript's string
interpolation of an integer count. -/
def natToString (n : Nat) : String := ⟨natDigits n⟩

/-- `isPrefixChars pat l` holds when `pat` is a prefix of `l`. -/
def isPrefixChars : List Char → List Char → Bool
  | [], _ => true
  | _ :: _, [] => false
  | a :: as, b :: bs => a == b && isPrefixChars as bs

/-- `containsSub pat l`: `pat` occurs as a contiguous substring of `l`.
This is JavaScript's `String.prototype.includes` on the underlying
character lists. -/
def containsSub (pat : List Char) : List Char → Bool
  | [] => isPrefixChars pat []
  | c :: cs => isPrefixChars pat (c :: cs) || containsSub pat cs

/-- JavaScript's `s.includes(pat)`. -/
def jsIncludes (s pat : String) : Bool := containsSub pat.data s.data

/-- `Math.round (a / b)` for natural `a` and positive `b` (JavaScript
rounds halves up). -/
def jsRoundDiv (a b : Nat) : Nat := (2 * a + b) / (2 * b)

/-- The distance wording chosen by `date-fns`' `formatDistance` (en-US
locale), one constructor per locale token. -/
inductive DistanceTok where
  | lessThanAMinute
  | xMinutes (n : Nat)
  | aboutXHours (n : Nat)
  | xDays (n : Nat)
  | aboutXMonths (n : Nat)
  | xMonths (n : Nat)
  | aboutXYears (n : Nat)
  | overXYears (n : Nat)
  | almostXYears (n : Nat)
deriving Repr, DecidableEq

/-- The en-US locale strings for each distance token (`date-fns`
`locale/en-US`, `formatDistance`, without suffix). -/
def renderTok : DistanceTok → String
  | .lessThanAMinute => "less than a minute"
  | .xMinutes n => if n = 1 then "1 minute" else natToString n ++ " minutes"
  | .aboutXHours n =>
    if n = 1 then "about 1 hour" else "about " ++ natToString n ++ " hours"
  | .xDays n => if n = 1 then "1 day" else natToString n ++ " days"
  | .aboutXMonths n =>
    if n = 1 then "about 1 month" else "about " ++ natToString n ++ " months"
  | .xMonths n => if n = 1 then "1 month" else natToString n ++ " months"
  | .aboutXYears n =>
    if n = 1 then "about 1 year" else "about " ++ natToString n ++ " years"
  | .overXYears n =>
    if n = 1 then "over 1 year" else "over " ++ natToString n ++ " years"
  | .almostXYears n =>
    if n = 1 then "almost 1 year" else "almost " ++ natToString n ++ " years"

/-- The branch structure of `date-fns`' `formatDistance` (v2, default
options, zero timezone-offset difference): `minutes` is
`Math.round(differenceInSeconds(late, early) / 60)` and `calMonths` is the
value of `differenceInMonths(late, early)`, which the function only
consults once the distance reaches two months (86400 minutes).  Thresholds
are the library's constants: 45 min, 90 min, 1440 min (1 day), 2520 min
(1.75 days), 43200 min (30 days), 86400 min (60 days). -/
def distanceTok (minutes : Nat) (calMonths : Nat) : DistanceTok :=
  if minutes < 2 then
    if minutes = 0 then .lessThanAMinute else .xMinutes minutes
  else if minutes < 45 then .xMinutes minutes
  else if minutes < 90 then .aboutXHours 1
  else if minutes < 1440 then .aboutXHours (jsRoundDiv minutes 60)
  else if minutes < 2520 then .xDays 1
  else if minutes < 43200 then .xDays (jsRoundDiv minutes 1440)
  else if minutes < 86400 then .aboutXMonths (jsRoundDiv minutes 43200)
  else if calMonths < 12 then .xMonths (jsRoundDiv minutes 43200)
  else if calMonths % 12 < 3 then .aboutXYears (calMonths / 12)
  else if calMonths % 12 < 9 then .overXYears (calMonths / 12)
  else .almostXYears (calMonths / 12 + 1)

/-- Whether a distance token's coarsest unit is hours or days. -/
def coarsestUnitHoursOrDays : DistanceTok → Bool
  | .aboutXHours _ => true
  | .xDays _ => true
  | _ => false

/-- `date-fns`' `formatDistanceToNow(d, { addSuffix })` evaluated at
reference time `now`, in a UTC model (no timezone-offset correction).
`differenceInSeconds` truncates toward zero, so for the ordered pair it is
`|d - now| / 1000`; `minutes` rounds half-up.  `dm` abstracts the
library's `differenceInMonths` between the two instants: its value needs
calendar arithmetic and only selects among month/year wordings, so the
theorems below hold for every `dm`.  With `addSuffix`, a strictly future
date gets the prefix `in` and every other date the suffix `ago`. -/
def formatDistanceToNowStr (dm : Int → Int → Nat) (d now : Int)
    (addSuffix : Bool) : String :=
  let ms : Nat := (d - now).natAbs
  let seconds : Nat := ms / 1000
  let minutes : Nat := jsRoundDiv seconds 60
  let result := renderTok (distanceTok minutes (dm d now))
  if addSuffix then
    if d > now then "in " ++ result else result ++ " ago"
  else result

/-- The value `formatDeadline` returns: display text and urgency flag. -/
structure DeadlineInfo where
  text : String
  urgent : Bool
deriving Repr, DecidableEq

/-- `formatDeadline` from `OpportunitiesTable.tsx` (lines 55–65).

```ts
function formatDeadline(deadline: string | null): { text: string; urgent: boolean } {
  if (!deadline) return { text: 'No deadline', urgent: false };
  try {
    const date = parseISO(deadline);
    if (isPast(date)) return { text: 'Expired', urgent: true };
    const distance = formatDistanceToNow(date, { addSuffix: false });
    return { text: `in ${distance}`, urgent: distance.includes('hour') || distance.includes('day') };
  } catch {
    return { text: 'Invalid date', urgent: false };
  }
}
```

On an unparseable string `parseISO` yields an Invalid Date, `isPast` is
`false` (`NaN < now`), and `formatDistanceToNow` throws a `RangeError`
that the `catch` turns into `Invalid date`.  `isPast` is a strict
comparison, so a deadline exactly at `now` is not expired. -/
def formatDeadline (dm : Int → Int → Nat) (deadline : Option DateString)
    (now : Int) : DeadlineInfo :=
  match deadline with
  | none => ⟨"No deadline", false⟩
  | some none => ⟨"Invalid date", false⟩
  | some (some d) =>
    if d < now then ⟨"Expired", true⟩
    else
      let distance := formatDistanceToNowStr dm d now false
      ⟨"in " ++ distance, jsIncludes distance "hour" || jsIncludes distance "day"⟩

/-- `formatRelativeTime` from `CrawlerStatus.tsx` (lines 58–65): `Never`
for a null timestamp, `Unknown` when `parseISO` yields an Invalid Date
(`formatDistanceToNow` then throws and the `catch` answers), otherwise the
suffixed distance string. -/
def formatRelativeTime (dm : Int → Int → Nat) (dateStr : Option DateString)
    (now : Int) : String :=
  match dateStr with
  | none => "Never"
  | some none => "Unknown"
  | some (some d) => formatDistanceToNowStr dm d now true

/-- Truncating division by 60000 is below 2 exactly on inputs below 120000
milliseconds; this holds for negative inputs as well because truncation
rounds toward zero. -/
theorem tdiv_sixtyK_lt_two (e : Int) : Int.tdiv e 60000 < 2 ↔ e < 120000 := by
  rcases le_or_lt 0 e with h | h
  · rw [Int.tdiv_eq_ediv h (by decide)]
    omega
  · have hne : (0 : Int) ≤ -e := by omega
    have hnn : (0 : Int) ≤ Int.tdiv (-e) 60000 :=
      Int.tdiv_nonneg hne (by decide)
    have hneg : Int.tdiv e 60000 = -Int.tdiv (-e) 60000 := by
      conv_lhs => rw [show e = -(-e) by omega]
      exact Int.neg_tdiv (-e) 60000
    omega

/-- Claim C1: for a session with status `pending` whose `created_at` parses
to the instant `c`, `isSessionActive` at reference time `t` is `true` iff
the elapsed time `t - c` is strictly below 2 minutes (120000 ms); in
particular 119 elapsed seconds give `true` and 120 give `false`. -/
theorem c1_pending_active_iff_under_two_minutes
    (s : CrawlSession) (c t : Int)
    (hs : s.status = "pending") (hc : s.created_at = some c) :
    isSessionActive (some s) t = true ↔ t - c < 120000 := by
  simp only [isSessionActive, hs, hc]
  rw [if_neg (by decide : ¬ ("pending" : String) = "running")]
  constructor
  · intro h
    exact (tdiv_sixtyK_lt_two _).mp (of_decide_eq_true h)
  · intro h
    exact decide_eq_true ((tdiv_sixtyK_lt_two _).mpr h)

/-- Witness for claim C1 at the boundary: with creation at time 0, the
session is active at 119 s and no longer active at 120 s. -/
theorem c1_pending_active_iff_under_two_minutes_witness :
    isSessionActive (some (pendingSessionAt 0)) 119000 = true ∧
      isSessionActive (some (pendingSessionAt 0)) 120000 = false := by
  constructor
  · exact (c1_pending_active_iff_under_two_minutes (pendingSessionAt 0) 0 119000
      rfl rfl).mpr (by decide)
  · have h := c1_pending_active_iff_under_two_minutes (pendingSessionAt 0) 0 120000
      rfl rfl
    simp only [show ¬((120000 : Int) - 0 < 120000) by decide, iff_false] at h
    exact Bool.not_eq_true _ ▸ h

/-- Claim C2: the label produced by `getStatusBadge` agrees with the spec's
display-status mapping on every session (present or absent) and at every
reference time: absent, stale-pending and unknown statuses show `Ready`,
and the five known statuses map directly, `pending` only within its
2-minute activity window.  Both sides are total, so no status value can
make the resolver fail. -/
theorem c2_display_status_refines_spec
    (session : Option CrawlSession) (now : Int) :
    (getStatusBadge session now).label = specResolveDisplayLabel session now := by
  cases session with
  | none => rfl
  | some s =>
    simp only [getStatusBadge, specResolveDisplayLabel]
    by_cases hp : s.status = "pending"
    · by_cases ha : isSessionActive (some s) now = true
      · simp [hp, ha]
      · simp [hp, ha, readyBadge]
    · rw [if_neg (fun hcon => hp hcon.1)]
      split <;> simp_all [readyBadge]

/-- Claim C4: `isSessionActive` is `true` on every `running` session
whatever its `created_at`, and `false` on every terminal session
(`completed`, `failed`, `cancelled`) and when no session is present. -/
theorem c4_running_active_terminal_inactive (s : CrawlSession) (t : Int) :
    (s.status = "running" → isSessionActive (some s) t = true) ∧
    (s.status = "completed" ∨ s.status = "failed" ∨ s.status = "cancelled" →
      isSessionActive (some s) t = false) ∧
    isSessionActive none t = false := by
  refine ⟨?_, ?_, rfl⟩
  · intro h
    simp [isSessionActive, h]
  · rintro (h | h | h) <;> simp [isSessionActive, h]

/-- Witness for claim C4: a concrete `running` session is active and a
concrete `completed` session is not. -/
theorem c4_running_active_terminal_inactive_witness :
    isSessionActive (some (sessionWithStatus "running")) 0 = true ∧
      isSessionActive (some (sessionWithStatus "completed")) 0 = false :=
  ⟨(c4_running_active_terminal_inactive (sessionWithStatus "running") 0).1 rfl,
   (c4_running_active_terminal_inactive (sessionWithStatus "completed") 0).2.1
     (Or.inl rfl)⟩

/-- Claim C5: the Start-Crawl button is enabled exactly when a source
exists and the current session (if any) is not active; with no sources it
is disabled whatever the session state. -/
theorem c5_trigger_iff_source_and_inactive
    (sources : List CrawlSource) (session : Option CrawlSession) (t : Int) :
    (canTriggerCrawl sources session t = true ↔
      sources ≠ [] ∧ isSessionActive session t = false) ∧
    canTriggerCrawl [] session t = false := by
  constructor
  · cases h1 : isSessionActive session t <;> cases h2 : sources.isEmpty <;>
      simp_all [canTriggerCrawl, List.isEmpty_iff]
  · simp [canTriggerCrawl]

/-- Witness for claim C5: with one configured source and no session the
button is enabled. -/
theorem c5_trigger_iff_source_and_inactive_witness :
    canTriggerCrawl [⟨"src1", "County portal"⟩] none 0 = true :=
  (c5_trigger_iff_source_and_inactive [⟨"src1", "County portal"⟩] none 0).1.mpr
    ⟨List.cons_ne_nil _ _, rfl⟩

/-- Claim C7: `formatCategoryLabel` maps the nine known category codes
case-insensitively through the fixed table, returns unknown (non-null,
non-empty) codes verbatim, and maps `null` to `Other`; in particular
`DYNAMICS` and `dynamics` both yield `Dynamics 365`.  (The empty string,
which the code also treats as absent, is covered by claim C10.) -/
theorem c7_category_label_table (c : String) :
    (jsToLower c = "dynamics" → formatCategoryLabel (some c) = "Dynamics 365") ∧
    (jsToLower c = "ai" → formatCategoryLabel (some c) = "AI/ML") ∧
    (jsToLower c = "iot" → formatCategoryLabel (some c) = "IoT") ∧
    (jsToLower c = "erp" → formatCategoryLabel (some c) = "ERP") ∧
    (jsToLower c = "staff_augmentation" →
      formatCategoryLabel (some c) = "Staff Aug") ∧
    (jsToLower c = "cloud" → formatCategoryLabel (some c) = "Cloud") ∧
    (jsToLower c = "cybersecurity" →
      formatCategoryLabel (some c) = "Cybersecurity") ∧
    (jsToLower c = "data_analytics" →
      formatCategoryLabel (some c) = "Analytics") ∧
    (jsToLower c = "other" → formatCategoryLabel (some c) = "Other") ∧
    (c ≠ "" → jsToLower c ∉ knownCategoryCodes →
      formatCategoryLabel (some c) = c) ∧
    formatCategoryLabel none = "Other" := by
  have hne : ∀ k : String, k ≠ "" → jsToLower c = k → ¬ c = "" := by
    intro k hk hck hc
    exact hk (by rw [← hck, hc]; rfl)
  refine ⟨?_, ?_, ?_, ?_, ?_, ?_, ?_, ?_, ?_, ?_, rfl⟩
  case _ => intro h; simp only [formatCategoryLabel, if_neg (hne _ (by decide) h), h]
  case _ => intro h; simp only [formatCategoryLabel, if_neg (hne _ (by decide) h), h]
  case _ => intro h; simp only [formatCategoryLabel, if_neg (hne _ (by decide) h), h]
  case _ => intro h; simp only [formatCategoryLabel, if_neg (hne _ (by decide) h), h]
  case _ => intro h; simp only [formatCategoryLabel, if_neg (hne _ (by decide) h), h]
  case _ => intro h; simp only [formatCategoryLabel, if_neg (hne _ (by decide) h), h]
  case _ => intro h; simp only [formatCategoryLabel, if_neg (hne _ (by decide) h), h]
  case _ => intro h; simp only [formatCategoryLabel, if_neg (hne _ (by decide) h), h]
  case _ => intro h; simp only [formatCategoryLabel, if_neg (hne _ (by decide) h), h]
  case _ =>
    intro hc hmem
    simp only [formatCategoryLabel, if_neg hc]
    split
    all_goals first
      | rfl
      | (exfalso; apply hmem; simp_all [knownCategoryCodes])

/-- Witness for claim C7: the upper- and lower-case spellings of
`dynamics` both map to `Dynamics 365`, and an unknown code passes through
verbatim. -/
theorem c7_category_label_table_witness :
    formatCategoryLabel (some "DYNAMICS") = "Dynamics 365" ∧
      formatCategoryLabel (some "dynamics") = "Dynamics 365" ∧
      formatCategoryLabel (some "quantum") = "quantum" :=
  ⟨(c7_category_label_table "DYNAMICS").1 (by decide),
   (c7_category_label_table "dynamics").1 (by decide),
   (c7_category_label_table "quantum").2.2.2.2.2.2.2.2.2.1
     (by decide) (by decide)⟩

/-- Claim C6: `getPrimaryCategory` is total and deterministic: it returns
the head of `categories` whenever that list is present and non-empty,
otherwise the (present, non-empty) legacy `category` field, otherwise
`null`. -/
theorem c6_primary_category_resolution (opp : Opportunity) :
    (∀ c rest, opp.categories = some (c :: rest) →
      getPrimaryCategory opp = some c) ∧
    ((opp.categories = none ∨ opp.categories = some []) →
      ∀ c, opp.category = some c → c ≠ "" → getPrimaryCategory opp = some c) ∧
    ((opp.categories = none ∨ opp.categories = some []) →
      opp.category = none → getPrimaryCategory opp = none) := by
  refine ⟨?_, ?_, ?_⟩
  · intro c rest hc
    simp [getPrimaryCategory, hc]
  · rintro (h | h) c hcat hne <;> simp [getPrimaryCategory, h, hcat, hne]
  · rintro (h | h) hcat <;> simp [getPrimaryCategory, h, hcat]

/-- Witness for claim C6 on the spec's three examples:
`categories = ["ai","erp"]` resolves to `ai`; an empty `categories` with
legacy `category = "iot"` resolves to `iot`; both absent resolves to
`null`. -/
theorem c6_primary_category_resolution_witness :
    getPrimaryCategory (oppWithCategories (some ["ai", "erp"]) none) = some "ai" ∧
      getPrimaryCategory (oppWithCategories (some []) (some "iot")) = some "iot" ∧
      getPrimaryCategory (oppWithCategories none none) = none :=
  ⟨(c6_primary_category_resolution _).1 "ai" ["erp"] rfl,
   (c6_primary_category_resolution _).2.1 (Or.inr rfl) "iot" rfl (by decide),
   (c6_primary_category_resolution _).2.2 (Or.inl rfl) rfl⟩

/-- Claim C10: at the public interface the empty string counts as an absent
category: `formatCategoryLabel` sends `""` to `Other` exactly as it sends
`null` to `Other`, and `getPrimaryCategory` of an opportunity with an empty
or absent `categories` list and an empty legacy `category` is `null`, never
the empty string. -/
theorem c10_empty_string_is_absent_category :
    formatCategoryLabel (some "") = "Other" ∧
    formatCategoryLabel none = "Other" ∧
    ∀ opp : Opportunity, (opp.categories = none ∨ opp.categories = some []) →
      opp.category = some "" → getPrimaryCategory opp = none := by
  refine ⟨rfl, rfl, ?_⟩
  rintro opp (h | h) hcat <;> simp [getPrimaryCategory, h, hcat]

/-- Witness for claim C10: a concrete opportunity with `categories = []`
and `category = ""` resolves to `null`. -/
theorem c10_empty_string_is_absent_category_witness :
    getPrimaryCategory (oppWithCategories (some []) (some "")) = none :=
  c10_empty_string_is_absent_category.2.2
    (oppWithCategories (some []) (some "")) (Or.inr rfl) rfl

/-- Every character produced by `natDigitsAux` is a decimal digit. -/
theorem natDigitsAux_isDigit :
    ∀ (fuel n : Nat), ∀ c ∈ natDigitsAux fuel n, c.isDigit = true := by
  intro fuel
  induction fuel with
  | zero => intro n c hc; simp [natDigitsAux] at hc
  | succ fuel ih =>
    intro n c hc
    have hten : ∀ k, k < 10 → (Nat.digitChar k).isDigit = true := by decide
    rw [natDigitsAux] at hc
    by_cases h : n < 10
    · rw [if_pos h] at hc
      simp only [List.mem_singleton] at hc
      subst hc
      exact hten n h
    · rw [if_neg h] at hc
      rcases List.mem_append.mp hc with hm | hm
      · exact ih (n / 10) c hm
      · simp only [List.mem_singleton] at hm
        subst hm
        exact hten (n % 10) (Nat.mod_lt _ (by omega))

/-- Every character of the decimal rendering of `n` is a digit. -/
theorem natDigits_isDigit (n : Nat) : ∀ c ∈ natDigits n, c.isDigit = true :=
  natDigitsAux_isDigit (n + 1) n

/-- A prefix match only uses characters of the searched list. -/
theorem isPrefixChars_subset :
    ∀ (p l : List Char), isPrefixChars p l = true → ∀ c ∈ p, c ∈ l := by
  intro p
  induction p with
  | nil =>
    intro l _ c hc
    simp at hc
  | cons a as ih =>
    intro l hp c hc
    cases l with
    | nil => simp [isPrefixChars] at hp
    | cons b bs =>
      rw [isPrefixChars, Bool.and_eq_true, beq_iff_eq] at hp
      rcases List.mem_cons.mp hc with h | h
      · subst h
        rw [hp.1]
        exact List.mem_cons_self b bs
      · exact List.mem_cons_of_mem b (ih bs hp.2 c h)

/-- A substring occurrence only uses characters of the searched list. -/
theorem containsSub_subset :
    ∀ (p l : List Char), containsSub p l = true → ∀ c ∈ p, c ∈ l := by
  intro p l
  induction l with
  | nil =>
    intro h c hc
    exact isPrefixChars_subset p [] h c hc
  | cons b bs ih =>
    intro h c hc
    rw [containsSub, Bool.or_eq_true] at h
    rcases h with h1 | h2
    · exact isPrefixChars_subset _ _ h1 c hc
    · exact List.mem_cons_of_mem b (ih h2 c hc)

/-- A pattern holding a character missing from the searched list never
occurs as a substring. -/
theorem containsSub_eq_false_of_missing {p l : List Char} {c : Char}
    (hc : c ∈ p) (hl : c ∉ l) : containsSub p l = false := by
  cases h : containsSub p l
  · rfl
  · exact absurd (containsSub_subset p l h c hc) hl

/-- A substring of the right part of a concatenation is a substring of the
whole. -/
theorem containsSub_append_left (p l₁ l₂ : List Char)
    (h : containsSub p l₂ = true) : containsSub p (l₁ ++ l₂) = true := by
  induction l₁ with
  | nil => exact h
  | cons a as ih =>
    rw [List.cons_append, containsSub, Bool.or_eq_true]
    exact Or.inr ih

/-- Appending strings concatenates their character lists. -/
theorem string_data_append (a b : String) : (a ++ b).data = a.data ++ b.data := by
  cases a
  cases b
  rfl

/-- Characters absent from both fixed parts and not digits do not occur in
`digits ++ post`. -/
theorem not_mem_digits_post {c : Char} (hdig : c.isDigit = false) (n : Nat)
    (post : List Char) (h2 : c ∉ post) : c ∉ natDigits n ++ post := by
  intro hm
  rcases List.mem_append.mp hm with h | h
  · have hd := natDigits_isDigit n c h
    rw [hd] at hdig
    exact Bool.noConfusion hdig
  · exact h2 h

/-- Characters absent from both fixed parts and not digits do not occur in
`(pre ++ digits) ++ post`. -/
theorem not_mem_pre_digits_post {c : Char} (hdig : c.isDigit = false) (n : Nat)
    (pre post : List Char) (h1 : c ∉ pre) (h2 : c ∉ post) :
    c ∉ (pre ++ natDigits n) ++ post := by
  intro hm
  rcases List.mem_append.mp hm with h | h
  · rcases List.mem_append.mp h with h | h
    · exact h1 h
    · have hd := natDigits_isDigit n c h
      rw [hd] at hdig
      exact Bool.noConfusion hdig
  · exact h2 h

/-- The rendered digits of a count. -/
theorem natToString_data (n : Nat) : (natToString n).data = natDigits n := rfl

/-- A pattern with a non-digit character absent from the fixed suffix does
not occur in `digits ++ suffix`. -/
theorem jsIncludes_digits_post_false (pat : String) (c : Char) (n : Nat)
    (post : String) (hcp : c ∈ pat.data) (hdig : c.isDigit = false)
    (hpost : c ∉ post.data) : jsIncludes (natToString n ++ post) pat = false := by
  unfold jsIncludes
  rw [string_data_append]
  exact containsSub_eq_false_of_missing hcp (not_mem_digits_post hdig n _ hpost)

/-- A pattern with a non-digit character absent from both fixed parts does
not occur in `prefix ++ digits ++ suffix`. -/
theorem jsIncludes_pre_digits_post_false (pat : String) (c : Char) (n : Nat)
    (pre post : String) (hcp : c ∈ pat.data) (hdig : c.isDigit = false)
    (hpre : c ∉ pre.data) (hpost : c ∉ post.data) :
    jsIncludes (pre ++ natToString n ++ post) pat = false := by
  unfold jsIncludes
  rw [string_data_append, string_data_append]
  exact containsSub_eq_false_of_missing hcp
    (not_mem_pre_digits_post hdig n _ _ hpre hpost)

/-- A substring of the right part of a string concatenation is a substring
of the whole. -/
theorem jsIncludes_append_of_right (l r pat : String)
    (h : jsIncludes r pat = true) : jsIncludes (l ++ r) pat = true := by
  unfold jsIncludes at h ⊢
  rw [string_data_append]
  exact containsSub_append_left _ _ _ h

/-- The urgency test of `formatDeadline` — does the rendered distance
contain `hour` or `day` — coincides, on every locale string the library
can produce, with the distance's coarsest unit being hours or days. -/
theorem renderTok_urgent_iff (tok : DistanceTok) :
    (jsIncludes (renderTok tok) "hour" || jsIncludes (renderTok tok) "day") =
      coarsestUnitHoursOrDays tok := by
  cases tok with
  | lessThanAMinute => decide
  | xMinutes n =>
    by_cases h : n = 1
    · subst h; decide
    · simp only [renderTok, if_neg h, coarsestUnitHoursOrDays]
      rw [jsIncludes_digits_post_false _ 'h' n _ (by decide) (by decide) (by decide),
        jsIncludes_digits_post_false _ 'd' n _ (by decide) (by decide) (by decide)]
      rfl
  | aboutXHours n =>
    by_cases h : n = 1
    · subst h; decide
    · simp only [renderTok, if_neg h, coarsestUnitHoursOrDays]
      rw [jsIncludes_append_of_right _ _ _
        (by decide : jsIncludes " hours" "hour" = true)]
      rfl
  | xDays n =>
    by_cases h : n = 1
    · subst h; decide
    · simp only [renderTok, if_neg h, coarsestUnitHoursOrDays]
      rw [jsIncludes_append_of_right _ _ _
        (by decide : jsIncludes " days" "day" = true)]
      exact Bool.or_true _
  | aboutXMonths n =>
    by_cases h : n = 1
    · subst h; decide
    · simp only [renderTok, if_neg h, coarsestUnitHoursOrDays]
      rw [jsIncludes_pre_digits_post_false _ 'r' n _ _
          (by decide) (by decide) (by decide) (by decide),
        jsIncludes_pre_digits_post_false _ 'd' n _ _
          (by decide) (by decide) (by decide) (by decide)]
      rfl
  | xMonths n =>
    by_cases h : n = 1
    · subst h; decide
    · simp only [renderTok, if_neg h, coarsestUnitHoursOrDays]
      rw [jsIncludes_digits_post_false _ 'u' n _ (by decide) (by decide) (by decide),
        jsIncludes_digits_post_false _ 'd' n _ (by decide) (by decide) (by decide)]
      rfl
  | aboutXYears n =>
    by_cases h : n = 1
    · subst h; decide
    · simp only [renderTok, if_neg h, coarsestUnitHoursOrDays]
      rw [jsIncludes_pre_digits_post_false _ 'h' n _ _
          (by decide) (by decide) (by decide) (by decide),
        jsIncludes_pre_digits_post_false _ 'd' n _ _
          (by decide) (by decide) (by decide) (by decide)]
      rfl
  | overXYears n =>
    by_cases h : n = 1
    · subst h; decide
    · simp only [renderTok, if_neg h, coarsestUnitHoursOrDays]
      rw [jsIncludes_pre_digits_post_false _ 'h' n _ _
          (by decide) (by decide) (by decide) (by decide),
        jsIncludes_pre_digits_post_false _ 'd' n _ _
          (by decide) (by decide) (by decide) (by decide)]
      rfl
  | almostXYears n =>
    by_cases h : n = 1
    · subst h; decide
    · simp only [renderTok, if_neg h, coarsestUnitHoursOrDays]
      rw [jsIncludes_pre_digits_post_false _ 'h' n _ _
          (by decide) (by decide) (by decide) (by decide),
        jsIncludes_pre_digits_post_false _ 'd' n _ _
          (by decide) (by decide) (by decide) (by decide)]
      rfl

set_option maxHeartbeats 1000000 in
/-- The coarsest unit is hours or days exactly on rounded-minute distances
from 45 minutes up to (but excluding) 30 days, whatever the calendar-month
distance. -/
theorem coarsest_distanceTok_iff (minutes calMonths : Nat) :
    coarsestUnitHoursOrDays (distanceTok minutes calMonths) = true ↔
      45 ≤ minutes ∧ minutes < 43200 := by
  unfold distanceTok
  split_ifs <;>
    simp only [coarsestUnitHoursOrDays, Bool.false_eq_true, false_iff,
      eq_self_iff_true, true_iff, not_and, not_lt] <;>
    omega

/-- Counterexample to claim C3 as stated: for a deadline exactly 10 days in
the future (reference time 0, deadline 864000000 ms) `formatDeadline`
renders `10 days` — a days-unit distance — so its `includes('day')` test
fires and `urgent` is `true`, not `false` as the claim asserts. -/
theorem c3_counterexample_ten_days_urgent :
    formatDeadline (fun _ _ => 0) (some (some 864000000)) 0 =
      ⟨"in 10 days", true⟩ := by
  rfl

/-- Claim C3 (amended): a null deadline gives `No deadline`/not urgent; a
deadline 1 hour in the past gives `Expired`/urgent; a deadline 3 hours in
the future gives `in about 3 hours`/urgent; a deadline 10 days in the
future gives `in 10 days` and is urgent (the days unit reaches up to 30
days, so the claim's `urgent:false` at 10 days is wrong); and in general a
future deadline's text is `in` followed by the relative duration, with
`urgent` exactly when the duration's coarsest unit is hours or days
(minutes, months and years wordings are never urgent).  `dm` is the
calendar-month distance used only to choose among month/year wordings; the
statement holds for every such function. -/
theorem c3_amended_deadline_urgency (dm : Int → Int → Nat) (t : Int) :
    formatDeadline dm none t = ⟨"No deadline", false⟩ ∧
    formatDeadline dm (some (some (t - 3600000))) t = ⟨"Expired", true⟩ ∧
    formatDeadline dm (some (some (t + 10800000))) t = ⟨"in about 3 hours", true⟩ ∧
    formatDeadline dm (some (some (t + 864000000))) t = ⟨"in 10 days", true⟩ ∧
    (∀ d : Int, t ≤ d →
      formatDeadline dm (some (some d)) t =
        ⟨"in " ++ formatDistanceToNowStr dm d t false,
          coarsestUnitHoursOrDays
            (distanceTok (jsRoundDiv ((d - t).natAbs / 1000) 60) (dm d t))⟩) := by
  refine ⟨rfl, ?_, ?_, ?_, ?_⟩
  · simp only [formatDeadline]
    rw [if_pos (show t - 3600000 < t by omega)]
  · simp only [formatDeadline]
    rw [if_neg (show ¬ t + 10800000 < t by omega)]
    have h2 : formatDistanceToNowStr dm (t + 10800000) t false = "about 3 hours" := by
      unfold formatDistanceToNowStr
      rw [show t + 10800000 - t = (10800000 : Int) by ring]
      rfl
    rw [h2]
    decide
  · simp only [formatDeadline]
    rw [if_neg (show ¬ t + 864000000 < t by omega)]
    have h2 : formatDistanceToNowStr dm (t + 864000000) t false = "10 days" := by
      unfold formatDistanceToNowStr
      rw [show t + 864000000 - t = (864000000 : Int) by ring]
      rfl
    rw [h2]
    decide
  · intro d hd
    simp only [formatDeadline]
    rw [if_neg (not_lt.mpr hd)]
    show DeadlineInfo.mk ("in " ++ formatDistanceToNowStr dm d t false)
        (jsIncludes (formatDistanceToNowStr dm d t false) "hour" ||
          jsIncludes (formatDistanceToNowStr dm d t false) "day") = _
    have hfd : formatDistanceToNowStr dm d t false =
        renderTok (distanceTok (jsRoundDiv ((d - t).natAbs / 1000) 60) (dm d t)) := rfl
    rw [hfd, renderTok_urgent_iff]

/-- Witness for the amended claim C3 at a concrete point: reference time 0
and a deadline 10 days later, where the urgency flag equals the
coarsest-unit test. -/
theorem c3_amended_deadline_urgency_witness :
    (0 : Int) ≤ 864000000 ∧
      formatDeadline (fun _ _ => 0) (some (some 864000000)) 0 =
        ⟨"in " ++ formatDistanceToNowStr (fun _ _ => 0) 864000000 0 false,
          coarsestUnitHoursOrDays
            (distanceTok (jsRoundDiv (((864000000 : Int) - 0).natAbs / 1000) 60) 0)⟩ :=
  ⟨by decide,
   (c3_amended_deadline_urgency (fun _ _ => 0) 0).2.2.2.2 864000000 (by decide)⟩

/-- Claim C8: parsing failures never escape the resolvers; each degrades
to its documented default: `formatRelativeTime` answers `Never` on a null
timestamp and `Unknown` on an unparseable one, `formatDeadline` answers
`Invalid date`/not urgent on an unparseable deadline, and a `pending`
session with an unparseable `created_at` is reported inactive.  All four
resolvers are total functions of their inputs, so no input can make them
throw. -/
theorem c8_parse_failures_safe_defaults (dm : Int → Int → Nat) (t : Int) :
    formatRelativeTime dm none t = "Never" ∧
    formatRelativeTime dm (some none) t = "Unknown" ∧
    formatDeadline dm (some none) t = ⟨"Invalid date", false⟩ ∧
    ∀ s : CrawlSession, s.status = "pending" → s.created_at = none →
      isSessionActive (some s) t = false := by
  refine ⟨rfl, rfl, rfl, ?_⟩
  intro s hs hc
  simp [isSessionActive, hs, hc]

/-- Witness for claim C8 at concrete inputs: the null, unparseable and
stale-parse defaults, evaluated at reference time 0. -/
theorem c8_parse_failures_safe_defaults_witness :
    formatRelativeTime (fun _ _ => 0) none 0 = "Never" ∧
      formatRelativeTime (fun _ _ => 0) (some none) 0 = "Unknown" ∧
      formatDeadline (fun _ _ => 0) (some none) 0 = ⟨"Invalid date", false⟩ ∧
      isSessionActive (some { pendingSessionAt 0 with created_at := none }) 0 = false :=
  ⟨(c8_parse_failures_safe_defaults (fun _ _ => 0) 0).1,
   (c8_parse_failures_safe_defaults (fun _ _ => 0) 0).2.1,
   (c8_parse_failures_safe_defaults (fun _ _ => 0) 0).2.2.1,
   (c8_parse_failures_safe_defaults (fun _ _ => 0) 0).2.2.2 _ rfl rfl⟩
